import Mathlib

/-!
Verification development for the cheetos kernel core.

Each Rust component the claims touch is shallowly embedded as Lean
definitions translated from the source under `src/kernel/src/`:

- `utils/data_structures/linked_list.rs` — the intrusive doubly-linked list,
  modelled as the sequence of its nodes (the `head` link corresponds to the
  first element of the sequence);
- `utils/data_structures/bit_set.rs` — the bit set, modelled as the list of
  its `cap` bits;
- `threads/alloc.rs` — the slab heap's small-size allocation path;
- `threads/sync/semaphore.rs` — the semaphore state machine;
- `threads/sync/lock.rs` — the lock and the sleep-mutex guard;
- `threads/interrupt/mutex.rs` — the IRQ-mutex guard;
- `threads/interrupt/handler.rs` — the interrupt handler registry;
- `threads/scheduler.rs` and `devices/timer.rs` — the tick / preemption path
  and the reclamation routine invoked from the context switch;
- `threads/palloc.rs` — the page-allocator initialization arithmetic.

Machine integers are modelled as `Nat`; the functions under scrutiny only
ever add or subtract small in-range quantities, and where the source performs
a `usize` subtraction the embedding uses truncated `Nat` subtraction, which
agrees with the source on the stated domains.
-/

namespace Cheetos

/-- PAGE_SIZE (threads/addr.rs): pages are 4 KiB. -/
def PAGE_SIZE : Nat := 4096

/-- div_round_up! (utils/round.rs): `($lhs + $rhs - 1) / $rhs`. -/
def div_round_up (lhs rhs : Nat) : Nat := (lhs + rhs - 1) / rhs

namespace LinkedList

/-- LinkedList::new: an empty list (both the head and tail links absent). -/
def new {α : Type} : List α := []

/-- LinkedList::is_empty, translated from the source body, which is
`self.head.is_some()`: the head link of the modelled list is `l.head?`. -/
def is_empty {α : Type} (l : List α) : Bool := l.head?.isSome

/-- LinkedList::push_back: the node becomes the new tail. -/
def push_back {α : Type} (l : List α) (x : α) : List α := l ++ [x]

/-- LinkedList::push_front: the node becomes the new head. -/
def push_front {α : Type} (l : List α) (x : α) : List α := x :: l

/-- LinkedList::pop_front: removes and returns the head node, `none` when the
list has no head. -/
def pop_front {α : Type} (l : List α) : Option α × List α :=
  match l with
  | [] => (none, [])
  | x :: xs => (some x, xs)

end LinkedList

namespace BitSet

/-- ELEMENT_BITS: elements are `AtomicU32`, 32 bits each. -/
def ELEMENT_BITS : Nat := 32

/-- get_element_count: number of elements required for `bit_count` bits. -/
def get_element_count (bit_count : Nat) : Nat := div_round_up bit_count ELEMENT_BITS

/-- get_byte_count: number of bytes required for `bit_count` bits
(4 bytes per element). -/
def get_byte_count (bit_count : Nat) : Nat := get_element_count bit_count * 4

/-- BitSet::buffer_size: `size_of::<BitSet>()` — a `usize` capacity plus an
element pointer, 16 bytes on x86-64 — plus the element storage. -/
def buffer_size (cap : Nat) : Nat := 16 + get_byte_count cap

/-- BitSet::get: the value of the bit at `index`. The bit set is modelled as
the list of its `cap` bits. -/
def get (bits : List Bool) (index : Nat) : Bool := bits.getD index false

/-- BitSet::contains, translated from the source:
`(start..start + count).any(|i| self.get(i) == value)`. -/
def contains (bits : List Bool) (start count : Nat) (value : Bool) : Bool :=
  (List.range' start count).any (fun i => get bits i == value)

/-- BitSet::scan, translated from the source:
`(start..self.cap - count).find(|i| !self.contains(*i, count, !value))`.
The Rust iterator runs over the half-open range up to `cap - count`
exclusive, hence the `List.range' start (cap - count - start)` below. -/
def scan (bits : List Bool) (start count : Nat) (value : Bool) : Option Nat :=
  (List.range' start (bits.length - count - start)).find?
    (fun i => !contains bits i count (!value))

end BitSet

namespace Alloc

/-- `size_of::<Arena>()` under `repr(C)` on x86-64: `magic: u32` (4 bytes,
padded to 8), `descriptor: Option<ArenaDescriptor>` (8-byte tag plus the
24-byte `repr(C)` payload of three `usize` fields, 32 bytes), and
`free_cnt: usize` (8 bytes): 48 bytes in total. -/
def ARENA_SIZE : Nat := 48

/-- Allocator::DESCRIPTOR_BLOCK_SIZE: the seven size classes. -/
def DESCRIPTOR_BLOCK_SIZE : List Nat := [16, 32, 64, 128, 256, 512, 1024]

/-- Allocator::get_descriptor: index of the first size class that fits
`size`, `none` when the request is too big for any descriptor. -/
def get_descriptor (size : Nat) : Option Nat :=
  (List.range 7).find? (fun i => size ≤ DESCRIPTOR_BLOCK_SIZE.getD i 0)

/-- Descriptor::blocks_per_arena as built by `make_descriptor!`:
`(PAGE_SIZE - size_of::<Arena>()) / block_size`. -/
def blocks_per_arena (block_size : Nat) : Nat := (PAGE_SIZE - ARENA_SIZE) / block_size

/-- The block addresses of a fresh arena at page address `p`
(ArenaBlocksIterMut): block `i` sits at `arena + size_of::<Arena>()
+ i * block_size`. -/
def arena_blocks (p block_size : Nat) : List Nat :=
  (List.range (blocks_per_arena block_size)).map (fun i => p + ARENA_SIZE + i * block_size)

/-- The small-size path of Allocator::alloc, translated from the source:
`page` is the result of `PAGE_ALLOCATOR.get_page(AllocateFlags::ZERO)`
(`none` when the kernel pool is exhausted). When
`descriptor.free_list.is_empty()` holds, the arena-creation branch runs:
with a page available all of the new arena's blocks are pushed onto the
free list, otherwise null is returned at once. Afterwards `pop_front`
yields the block to return, or null when it yields nothing. The result is
the returned block address (`none` = null) paired with the descriptor's
free list afterwards. -/
def alloc_small (free_list : List Nat) (page : Option Nat) (block_size : Nat) :
    Option Nat × List Nat :=
  if LinkedList.is_empty free_list then
    match page with
    | some p =>
        LinkedList.pop_front ((arena_blocks p block_size).foldl LinkedList.push_back free_list)
    | none => (none, free_list)
  else
    LinkedList.pop_front free_list

end Alloc

/-- C9: `LinkedList::is_empty` claims to return `true` iff the list contains
no nodes; the source body returns `self.head.is_some()`, which is the exact
inverse: on the freshly created list it returns `false`, and after one
`push_back` it returns `true`. -/
theorem linked_list_is_empty_inverted :
    LinkedList.is_empty (LinkedList.new : List Nat) = false ∧
    LinkedList.is_empty (LinkedList.push_back (LinkedList.new : List Nat) 0) = true :=
  ⟨rfl, rfl⟩

/-- C6: `BitSet::scan` claims to find every run of `count` bits equal to
`value` starting at or after `start`, including a run that ends exactly at
index `cap`; but the source iterates the half-open range
`start..cap - count`, which excludes the starting index `cap - count`, so
on a bit set of capacity 2 with both bits clear, `scan(0, 2, false)`
returns `None` although the run 0..2 ends exactly at the capacity. -/
theorem bit_set_scan_boundary_miss :
    BitSet.scan [false, false] 0 2 false = none ∧
    BitSet.contains [false, false] 0 2 false = true :=
  ⟨rfl, rfl⟩

/-- C1: with the chosen descriptor's free list empty and a kernel page
available at address 4096, `Allocator::alloc` for a 16-byte request returns
null and leaves the free list empty: the inverted `is_empty` (which yields
`false` on the empty list) skips the arena-creation branch, and `pop_front`
on the empty free list yields nothing — contrary to the claim that a fresh
arena is created and a non-null block returned. -/
theorem alloc_small_null_on_empty_free_list :
    Alloc.alloc_small [] (some 4096) 16 = (none, []) ∧
    Alloc.get_descriptor 16 = some 0 :=
  ⟨rfl, rfl⟩

namespace Semaphore

/-- The semaphore's guarded state (struct `Inner` in
threads/sync/semaphore.rs): the nonnegative value and the waiter list of
blocked thread ids (`waiters` holds the threads' `sync_node`s in arrival
order; `push_back` appends, `pop_front` removes the head). -/
structure Inner where
  value : Nat
  waiters : List Nat
deriving Repr, DecidableEq

/-- Inner::try_down: decrement the value if positive and report success,
otherwise leave the state unchanged and report failure. -/
def try_down (s : Inner) : Bool × Inner :=
  if 0 < s.value then (true, { s with value := s.value - 1 }) else (false, s)

/-- Inner::up: `pop_front` the waiter list (the popped thread is handed to
the scheduler's `unblock`), then increment the value. -/
def up (s : Inner) : Inner :=
  { value := s.value + 1, waiters := (LinkedList.pop_front s.waiters).2 }

/-- One iteration of the loop in Inner::down taken when `value == 0`: the
calling thread `t` pushes its `sync_node` onto the waiter list and blocks. -/
def down_block (t : Nat) (s : Inner) : Inner :=
  { s with waiters := LinkedList.push_back s.waiters t }

/-- The completion of Inner::down once `value > 0`: the loop exits and the
value is decremented. A thread resumed by `up` re-executes the loop test and
takes exactly this step when it finds the value positive. -/
def down_finish (s : Inner) : Inner := { s with value := s.value - 1 }

/-- The atomic steps of the semaphore, each taken under the IRQ-mutex: a
`down` that finds the value zero enqueues and blocks, a `down` that finds
it positive decrements, `try_down` runs to completion, and `up` dequeues a
waiter (if any) and increments. -/
inductive Step : Inner → Inner → Prop
  | down_block (t : Nat) (s : Inner) (h : s.value = 0) : Step s (down_block t s)
  | down_finish (s : Inner) (h : 0 < s.value) : Step s (down_finish s)
  | try_down (s : Inner) : Step s (try_down s).2
  | up (s : Inner) : Step s (up s)

/-- The predicate claimed invariant: a positive value implies no waiters. -/
def invariant (s : Inner) : Prop := 0 < s.value → s.waiters = []

instance (s : Inner) : Decidable (invariant s) := by
  unfold invariant; infer_instance

end Semaphore

/-- C2 counterexample: from the initial semaphore `new(0)` the state with
value 1 and waiter list `[2]` is reachable — thread 1 blocks, thread 2
blocks, then one `up` pops thread 1 and increments the value — and that
state violates the claimed predicate `value > 0 → waiters = []`. -/
theorem semaphore_up_invariant_cex :
    Relation.ReflTransGen Semaphore.Step ⟨0, []⟩ ⟨1, [2]⟩ ∧
    ¬ Semaphore.invariant ⟨1, [2]⟩ := by
  constructor
  · have h1 : Semaphore.Step ⟨0, []⟩ ⟨0, [1]⟩ := Semaphore.Step.down_block 1 ⟨0, []⟩ rfl
    have h2 : Semaphore.Step ⟨0, [1]⟩ ⟨0, [1, 2]⟩ := Semaphore.Step.down_block 2 ⟨0, [1]⟩ rfl
    have h3 : Semaphore.Step ⟨0, [1, 2]⟩ ⟨1, [2]⟩ := Semaphore.Step.up ⟨0, [1, 2]⟩
    exact ((Relation.ReflTransGen.refl.tail h1).tail h2).tail h3
  · decide

/-- C2 amended: `up` applied to a zero-valued semaphore with two or more
waiters leaves value 1 with a non-empty waiter list, violating the
predicate; the predicate is re-established as soon as the woken thread
resumes its `down` and decrements the value; and the predicate is preserved
by `try_down`, by the blocking and finishing `down` steps, and by `up`
whenever at most one thread waits. -/
theorem semaphore_up_invariant_amended (t : Nat) (rest : List Nat) (h : rest ≠ []) :
    ¬ Semaphore.invariant (Semaphore.up ⟨0, t :: rest⟩) ∧
    Semaphore.invariant (Semaphore.down_finish (Semaphore.up ⟨0, t :: rest⟩)) ∧
    (∀ s : Semaphore.Inner, Semaphore.invariant s →
      Semaphore.invariant (Semaphore.try_down s).2) ∧
    (∀ s : Semaphore.Inner, ∀ t2 : Nat, s.value = 0 →
      Semaphore.invariant (Semaphore.down_block t2 s)) ∧
    (∀ s : Semaphore.Inner, Semaphore.invariant s →
      Semaphore.invariant (Semaphore.down_finish s)) ∧
    (∀ s : Semaphore.Inner, Semaphore.invariant s → s.waiters.length ≤ 1 →
      Semaphore.invariant (Semaphore.up s)) := by
  refine ⟨?_, ?_, ?_, ?_, ?_, ?_⟩
  · intro hinv
    exact h (hinv (Nat.zero_lt_one))
  · intro hpos
    simp [Semaphore.down_finish, Semaphore.up] at hpos
  · intro s hs
    unfold Semaphore.try_down
    split
    · intro hpos
      exact hs (by omega)
    · exact hs
  · intro s t2 hzero hpos
    simp [Semaphore.down_block] at hpos
    omega
  · intro s hs hpos
    simp [Semaphore.down_finish] at hpos ⊢
    exact hs (by omega)
  · intro s hs hlen hpos
    unfold Semaphore.up LinkedList.pop_front
    cases hw : s.waiters with
    | nil => simp [hw]
    | cons x xs =>
      simp [hw]
      have : xs.length = 0 := by
        have := hlen
        rw [hw] at this
        simpa using this
      exact List.length_eq_zero.mp this

/-- C2 amended witness: the amended theorem instantiated at `t = 1`,
`rest = [2]`. -/
theorem semaphore_up_invariant_amended_witness :
    ¬ Semaphore.invariant (Semaphore.up ⟨0, 1 :: [2]⟩) :=
  (semaphore_up_invariant_amended 1 [2] (by decide)).1

namespace Lock

/-- The lock's state (threads/sync/lock.rs): the source `Lock` consists of
nothing but a binary semaphore — in this revision it records no owner
thread. -/
abbrev State := Semaphore.Inner

/-- Lock::new: `Semaphore::new(1)`. -/
def new : State := ⟨1, []⟩

/-- Lock::acquire when the semaphore value is positive: `down` exits its
loop at once and decrements (the external-context assertion always passes,
see the registry development below). -/
def acquire (s : State) : State := Semaphore.down_finish s

/-- Lock::try_acquire: `Semaphore::try_down`. -/
def try_acquire (s : State) : Bool × State := Semaphore.try_down s

/-- Lock::release, translated from the source: the body is exactly
`self.semaphore.up()` — it takes no note of the calling thread, asserts
nothing about an owner, and has no owner to clear. -/
def release (s : State) : State := Semaphore.up s

/-- Modelled from the spec, for comparison with `release`: a release that
requires the recorded owner to equal the calling thread and clears it
before the semaphore up, as the claim describes. Returns `none` (assertion
failure) when the caller is not the owner. -/
def spec_release (owner : Option Nat) (caller : Nat) (s : State) :
    Option (Option Nat × State) :=
  if owner = some caller then some (none, Semaphore.up s) else none

/-- MutexGuard::drop (threads/sync/lock.rs): the drop path clears the
`MutexData` holder and calls `Lock::release` only when the recorded holder
is the current thread. -/
def mutex_guard_drop (holder : Option Nat) (current : Nat) (s : State) :
    Option Nat × State :=
  if holder = some current then (none, release s) else (none, s)

end Lock

/-- C3 counterexample: thread 1 acquires the fresh lock, then thread 2 —
which never acquired it — calls `release`: the source `release` is
insensitive to the caller and succeeds, returning the lock to the unlocked
state with value 1, whereas the owner-checking release the claim describes
rejects the call; the source `Lock` has no owner field for `release` to
assert on or clear. -/
theorem lock_release_owner_cex :
    Lock.release (Lock.acquire Lock.new) = Lock.new ∧
    Lock.spec_release (some 1) 2 (Lock.acquire Lock.new) = none :=
  ⟨rfl, rfl⟩

/-- C3 amended: `Lock::release` performs no owner check — any thread,
including one that never acquired the lock, successfully releases it, after
which the lock can be acquired again; the owner check lives one level up,
in `MutexGuard::drop`, which calls `release` exactly when the recorded
holder equals the current thread. -/
theorem lock_release_amended (s : Lock.State) (holder current : Nat)
    (h : holder ≠ current) :
    Lock.release (Lock.acquire Lock.new) = Lock.new ∧
    (Lock.try_acquire (Lock.release (Lock.acquire Lock.new))).1 = true ∧
    Lock.mutex_guard_drop (some holder) current s = (none, s) ∧
    Lock.mutex_guard_drop (some current) current s = (none, Lock.release s) := by
  refine ⟨rfl, rfl, ?_, ?_⟩
  · unfold Lock.mutex_guard_drop
    rw [if_neg]
    simpa using h
  · unfold Lock.mutex_guard_drop
    rw [if_pos rfl]

/-- C3 amended witness: the amended theorem instantiated at the locked
state with holder 1 and current thread 2. -/
theorem lock_release_amended_witness :
    Lock.mutex_guard_drop (some 1) 2 ⟨0, []⟩ = (none, ⟨0, []⟩) :=
  (lock_release_amended ⟨0, []⟩ 1 2 (by decide)).2.2.1

namespace InterruptMutex

/-- The observable state of an IRQ-mutex guard
(threads/interrupt/mutex.rs): the CPU interrupt-enable flag together with
the guard's `prev_enabled` snapshot field. -/
structure GuardState where
  enabled : Bool
  prev_enabled : Option Bool
deriving Repr, DecidableEq

/-- MutexGuard::new: `prev_enabled` starts as `None`; the interrupt flag is
untouched — `lock()` itself snapshots nothing. -/
def guard_new (e : Bool) : GuardState := ⟨e, none⟩

/-- MutexGuard::deref_mut, translated from the source: every mutable access
overwrites the snapshot with the current flag
(`self.prev_enabled = Some(are_enabled())`) and then disables interrupts. -/
def deref_mut (g : GuardState) : GuardState := ⟨false, some g.enabled⟩

/-- MutexGuard::drop: `if let Some(true) = self.prev_enabled { enable() }`. -/
def guard_drop (g : GuardState) : GuardState :=
  match g.prev_enabled with
  | some true => { g with enabled := true }
  | _ => g

end InterruptMutex

/-- C4 counterexample: a guard acquired with interrupts enabled whose first
mutable access snapshots `Some true`, but whose second mutable access
overwrites the snapshot with `Some false` (interrupts are by then
disabled), so the drop leaves interrupts disabled — the claim says the drop
re-enables them because they were enabled at the first mutable access. -/
theorem irq_mutex_snapshot_cex :
    (InterruptMutex.deref_mut (InterruptMutex.guard_new true)).prev_enabled = some true ∧
    (InterruptMutex.guard_drop
      (InterruptMutex.deref_mut
        (InterruptMutex.deref_mut (InterruptMutex.guard_new true)))).enabled = false :=
  ⟨rfl, rfl⟩

/-- C4 amended: the snapshot is taken on every mutable access, overwriting
the previous one, and the drop re-enables interrupts iff interrupts were
enabled at the most recent mutable access; every access after the first
observes interrupts disabled, and with exactly one mutable access the
behavior coincides with the claim's enabled-at-acquisition rule. -/
theorem irq_mutex_snapshot_amended (g : InterruptMutex.GuardState) (e : Bool) :
    (InterruptMutex.guard_drop (InterruptMutex.deref_mut g)).enabled = g.enabled ∧
    (InterruptMutex.deref_mut g).prev_enabled = some g.enabled ∧
    (InterruptMutex.deref_mut (InterruptMutex.deref_mut g)).prev_enabled = some false ∧
    (InterruptMutex.guard_drop
      (InterruptMutex.deref_mut (InterruptMutex.guard_new e))).enabled = e := by
  refine ⟨?_, rfl, rfl, ?_⟩
  · cases he : g.enabled <;>
      simp [InterruptMutex.guard_drop, InterruptMutex.deref_mut, he]
  · cases e <;> rfl

/-- Thread::Status (threads/thread.rs): the states of a thread's life
cycle. -/
inductive Status where
  | Running
  | Ready
  | Blocked
  | Dying
deriving Repr, DecidableEq

namespace Scheduler

/-- Scheduler::TIME_SLICE: number of timer ticks given to each thread. -/
def TIME_SLICE : Nat := 4

/-- The scheduler state touched by the tick / preemption path
(threads/scheduler.rs), together with the current thread's record fields
that path reads or writes: the tick statistics, the ready list of thread
ids, and the current thread's id and status. -/
structure State where
  idle_ticks : Nat
  kernel_ticks : Nat
  current_thread_ticks : Nat
  ready_list : List Nat
  current_id : Nat
  current_status : Status
deriving Repr, DecidableEq

/-- Scheduler::tick, translated from the source: called by the timer
interrupt handler at each timer tick; it increments `idle_ticks` or
`kernel_ticks` and then `current_thread_ticks`, and touches nothing else —
in particular neither the ready list nor the current thread's status. -/
def tick (is_idle : Bool) (s : State) : State :=
  if is_idle then
    { s with idle_ticks := s.idle_ticks + 1,
             current_thread_ticks := s.current_thread_ticks + 1 }
  else
    { s with kernel_ticks := s.kernel_ticks + 1,
             current_thread_ticks := s.current_thread_ticks + 1 }

/-- Scheduler::yield_current_thread: the current thread is marked Ready and
pushed onto the ready list's tail, after which `schedule` switches away. -/
def yield_current_thread (s : State) : State :=
  { s with current_status := Status.Ready,
           ready_list := LinkedList.push_back s.ready_list s.current_id }

/-- Scheduler::preempt_current_thread, translated from the source: yields
when `current_thread_ticks >= TIME_SLICE`. No call site of this function
exists anywhere in the repository. -/
def preempt_current_thread (s : State) : State :=
  if TIME_SLICE ≤ s.current_thread_ticks then yield_current_thread s else s

/-- Name of the initial kernel thread adopted at boot. -/
def MAIN_NAME : String := "main"

/-- Name of the idle thread spawned by Scheduler::start. -/
def IDLE_NAME : String := "idle"

/-- reclaim_dying_thread (threads/scheduler.rs), translated from the
source: invoked from inside `switch_threads` with the outgoing thread as
argument; when that thread's status is Dying it asserts the thread is
named neither "main" nor "idle" — and does nothing else: no call into the
page allocator occurs anywhere in the body. `stack_pages` models the page
indices currently allocated to the outgoing thread's stack; `none` models
an assertion failure (panic), and on success the still-allocated pages are
returned, unchanged. -/
def reclaim_dying_thread (status : Status) (name : String)
    (stack_pages : List Nat) : Option (List Nat) :=
  if status = Status.Dying then
    if name = MAIN_NAME then none
    else if name = IDLE_NAME then none
    else some stack_pages
  else some stack_pages

/-- A sample name for an ordinary kernel thread, used as a concrete input. -/
def SAMPLE_NAME : String := "worker"

end Scheduler

namespace Timer

/-- Timer (devices/timer.rs): the tick counter since boot. -/
structure State where
  ticks : Nat
deriving Repr, DecidableEq

/-- Timer::tick. -/
def tick (t : State) : State := { ticks := t.ticks + 1 }

/-- The timer interrupt handler (devices/timer.rs), translated from the
source: the entire body is `TIMER.lock().tick(); SCHEDULER.lock().tick();`
— no other call occurs before the handler returns. -/
def interrupt (is_idle : Bool) (t : State) (s : Scheduler.State) :
    State × Scheduler.State :=
  (tick t, Scheduler.tick is_idle s)

end Timer

/-- C5: when the timer interrupt fires with the scheduler's
`current_thread_ticks` already at TIME_SLICE (= 4), the handler merely
increments the tick counters and returns: the current thread stays Running,
the ready list is untouched, and the slice counter grows to 5 — no yield
happens, because `preempt_current_thread` (which, as the last conjuncts
show, would have marked the thread Ready and queued it) is never invoked by
the handler or anything else. -/
theorem timer_interrupt_no_preemption :
    (Timer.interrupt false ⟨100⟩ ⟨0, 99, 4, [], 7, Status.Running⟩).2.current_status
      = Status.Running ∧
    (Timer.interrupt false ⟨100⟩ ⟨0, 99, 4, [], 7, Status.Running⟩).2.ready_list = [] ∧
    (Timer.interrupt false ⟨100⟩ ⟨0, 99, 4, [], 7, Status.Running⟩).2.current_thread_ticks = 5 ∧
    (Scheduler.preempt_current_thread ⟨0, 99, 4, [], 7, Status.Running⟩).current_status
      = Status.Ready ∧
    (Scheduler.preempt_current_thread ⟨0, 99, 4, [], 7, Status.Running⟩).ready_list = [7] := by
  refine ⟨rfl, rfl, rfl, ?_, ?_⟩ <;> decide

/-- C7: switching away from a Dying thread named "worker" whose four stack
pages are allocated leaves all four pages allocated: `reclaim_dying_thread`
only asserts that the dying thread is named neither "main" nor "idle"
(panicking when it is) and never calls the page allocator, contrary to the
claim (and to its own doc comment) that the four stack pages are freed. -/
theorem reclaim_dying_thread_frees_nothing :
    Scheduler.reclaim_dying_thread Status.Dying Scheduler.SAMPLE_NAME [40, 41, 42, 43]
      = some [40, 41, 42, 43] ∧
    Scheduler.reclaim_dying_thread Status.Dying Scheduler.MAIN_NAME [0, 1, 2, 3] = none := by
  refine ⟨?_, ?_⟩ <;> decide

namespace Palloc

/-- The layout a pool ends up with after Pool::init: the leading pages
reserved for the bitmap, the allocatable page count, and the first
allocatable page index (`base`). -/
structure PoolLayout where
  reserved_pages : Nat
  available_pages : Nat
  base : Nat
deriving Repr, DecidableEq

/-- Pool::init (threads/palloc.rs), translated from the source: `start` is
the pool's first page index and `page_count` its total page count;
`pages_used = div_round_up!(BitSet::buffer_size(page_count), PAGE_SIZE)`
pages at the start hold the bitmap, the remaining pages are allocatable,
and `base` is the first page after the bitmap. -/
def pool_init (start page_count : Nat) : PoolLayout :=
  let pages_used := div_round_up (BitSet.buffer_size page_count) PAGE_SIZE
  ⟨pages_used, page_count - pages_used, start + pages_used⟩

/-- The split PageAllocator::init computes. -/
structure InitLayout where
  kernel_pages : Nat
  user_pages : Nat
  kernel_start : Nat
  user_start : Nat
  kernel_pool : PoolLayout
  user_pool : PoolLayout
deriving Repr, DecidableEq

/-- PageAllocator::init (threads/palloc.rs), translated from the source:
`free_start_page` is the first page of the single usable region reported by
the bootloader and `free_pages` its page count;
`user_pages = user_page_limit.min(free_pages / 2)`,
`kernel_pages = free_pages - user_pages`, the kernel pool starts at the
region's start and the user pool right after it, and each pool is laid out
by `Pool::init`. -/
def page_allocator_init (free_start_page free_pages user_page_limit : Nat) :
    InitLayout :=
  let user_pages := min user_page_limit (free_pages / 2)
  let kernel_pages := free_pages - user_pages
  let kernel_start := free_start_page
  let user_start := free_start_page + kernel_pages
  ⟨kernel_pages, user_pages, kernel_start, user_start,
    pool_init kernel_start kernel_pages, pool_init user_start user_pages⟩

end Palloc

/-- C8: page-allocator initialization splits the usable region so that
`user_pages = min(user_page_limit, total / 2)` and
`kernel_pages = total - user_pages` (the two always summing back to the
total), places the kernel pool first at the region's start with the user
pool immediately after, and each pool reserves its own leading
`ceil(bitmap_buffer_size / 4096)` pages for its bitmap, leaving the rest as
the pool's allocatable pages starting at `base`. The two hypotheses state
that each pool is large enough to hold its own bitmap. -/
theorem page_allocator_init_split (f n u : Nat)
    (hk : div_round_up (BitSet.buffer_size (n - min u (n / 2))) PAGE_SIZE
      ≤ n - min u (n / 2))
    (hu : div_round_up (BitSet.buffer_size (min u (n / 2))) PAGE_SIZE
      ≤ min u (n / 2)) :
    (Palloc.page_allocator_init f n u).user_pages = min u (n / 2) ∧
    (Palloc.page_allocator_init f n u).kernel_pages
      = n - (Palloc.page_allocator_init f n u).user_pages ∧
    (Palloc.page_allocator_init f n u).kernel_pages
      + (Palloc.page_allocator_init f n u).user_pages = n ∧
    (Palloc.page_allocator_init f n u).kernel_start = f ∧
    (Palloc.page_allocator_init f n u).user_start
      = f + (Palloc.page_allocator_init f n u).kernel_pages ∧
    (Palloc.page_allocator_init f n u).kernel_pool.reserved_pages
      = div_round_up (BitSet.buffer_size (Palloc.page_allocator_init f n u).kernel_pages)
          PAGE_SIZE ∧
    (Palloc.page_allocator_init f n u).kernel_pool.base
      = f + (Palloc.page_allocator_init f n u).kernel_pool.reserved_pages ∧
    (Palloc.page_allocator_init f n u).kernel_pool.reserved_pages
      + (Palloc.page_allocator_init f n u).kernel_pool.available_pages
      = (Palloc.page_allocator_init f n u).kernel_pages ∧
    (Palloc.page_allocator_init f n u).user_pool.reserved_pages
      = div_round_up (BitSet.buffer_size (Palloc.page_allocator_init f n u).user_pages)
          PAGE_SIZE ∧
    (Palloc.page_allocator_init f n u).user_pool.base
      = (Palloc.page_allocator_init f n u).user_start
        + (Palloc.page_allocator_init f n u).user_pool.reserved_pages ∧
    (Palloc.page_allocator_init f n u).user_pool.reserved_pages
      + (Palloc.page_allocator_init f n u).user_pool.available_pages
      = (Palloc.page_allocator_init f n u).user_pages := by
  refine ⟨rfl, rfl, ?_, rfl, rfl, rfl, rfl, ?_, rfl, rfl, ?_⟩
  · show (n - min u (n / 2)) + min u (n / 2) = n
    omega
  · show div_round_up (BitSet.buffer_size (n - min u (n / 2))) PAGE_SIZE
      + ((n - min u (n / 2))
          - div_round_up (BitSet.buffer_size (n - min u (n / 2))) PAGE_SIZE)
      = n - min u (n / 2)
    omega
  · show div_round_up (BitSet.buffer_size (min u (n / 2))) PAGE_SIZE
      + (min u (n / 2)
          - div_round_up (BitSet.buffer_size (min u (n / 2))) PAGE_SIZE)
      = min u (n / 2)
    omega

/-- C8 witness: a 4000-page region with a 1000-page user limit; both
bitmap-fits hypotheses hold there and the split gives the user pool
min(1000, 2000) = 1000 pages. -/
theorem page_allocator_init_split_witness :
    div_round_up (BitSet.buffer_size (4000 - min 1000 (4000 / 2))) PAGE_SIZE
      ≤ 4000 - min 1000 (4000 / 2) ∧
    (Palloc.page_allocator_init 0 4000 1000).user_pages = min 1000 (4000 / 2) :=
  ⟨by decide, (page_allocator_init_split 0 4000 1000 (by decide) (by decide)).1⟩

namespace InterruptRegistry

/-- One slot of the table (struct InterruptHandlerRegistry in
threads/interrupt/handler.rs): whether a handler is installed (handler
function pointers are modelled as opaque ids), the debug name, and the
unexpected-invocation counter. -/
structure Slot where
  handler : Option Nat
  name : String
  unexpected_count : Nat
deriving Repr, DecidableEq

/-- InterruptHandlerRegistry::new. -/
def slot_new : Slot := ⟨none, "", 0⟩

/-- InterruptHandlersRegistry (threads/interrupt/handler.rs): the 256-slot
table and the `is_external_context` flag. The IDT itself carries no state
the claims depend on and is omitted. -/
structure Registry where
  registries : List Slot
  is_external_context : Bool
deriving Repr, DecidableEq

/-- InterruptHandlersRegistry::new: all slots fresh, the flag false. -/
def new : Registry := ⟨List.replicate 256 slot_new, false⟩

/-- InterruptHandlerRegistry::set_name applied to slot `i` of the table. -/
def set_name (rs : List Slot) (i : Nat) (n : String) : List Slot :=
  rs.set i { rs.getD i slot_new with name := n }

/-- The name assignments performed by InterruptHandlersRegistry::init for
the CPU-exception vectors. -/
def INIT_NAMES : List (Nat × String) :=
  [(0, "#DE Divide Error"), (1, "#DB Debug Exception"), (2, "NMI Interrupt"),
   (3, "#BP Breakpoint Exception"), (4, "#OF Overflow Exception"),
   (5, "#BR BOUND Range Exceeded Exception"), (6, "#UD Invalid Opcode Exception"),
   (7, "#NM Device Not Available Exception"), (8, "#DF Double Fault Exception"),
   (9, "Coprocessor Segment Overrun"), (10, "#TS Invalid TSS Exception"),
   (11, "#NP Segment Not Present"), (12, "#SS Stack Fault Exception"),
   (13, "#GP General Protection Exception"), (14, "#PF Page-Fault Exception"),
   (16, "#MF x87 FPU Floating-Point Error"), (17, "#AC Alignment Check Exception"),
   (18, "#MC Machine-Check Exception"), (19, "#XF SIMD Floating-Point Exception")]

/-- The name every external vector gets from init. -/
def UNKNOWN_NAME : String := "unknown"

/-- InterruptHandlersRegistry::init, translated from the source: installs
the IDT stubs (no modelled state), assigns the exception names and then
"unknown" to every vector at or above EXTERNAL_INTERRUPT_OFFSET (0x20).
The `is_external_context` field is not written anywhere in the body. -/
def init (r : Registry) : Registry :=
  let rs := INIT_NAMES.foldl (fun rs p => set_name rs p.1 p.2) r.registries
  let rs := (List.range 256).foldl
    (fun rs i => if 0x20 ≤ i then set_name rs i UNKNOWN_NAME else rs) rs
  { r with registries := rs }

/-- InterruptHandlersRegistry::load: loads the IDT register; no registry
state changes. -/
def load (r : Registry) : Registry := r

/-- Modelled from the spec: `register(vector, handler, name)` — called from
devices/timer.rs but absent from src — installs a handler and its name for
the vector under the registry mutex (spec section 4.4); it does not write
`is_external_context`. -/
def register (r : Registry) (vector handler_id : Nat) (n : String) : Registry :=
  let slot : Slot := ⟨some handler_id, n, (r.registries.getD vector slot_new).unexpected_count⟩
  { r with registries := r.registries.set vector slot }

/-- The generic interrupt entry `handler` installed in every IDT slot
(handler.rs line 154), translated from the source: its body is empty, so as
an operation on the registry state it is the identity. -/
def dispatch (r : Registry) : Registry := r

/-- The registry operations present in the repository (plus the
spec-modelled `register`). -/
inductive Step : Registry → Registry → Prop
  | init (r : Registry) : Step r (init r)
  | load (r : Registry) : Step r (load r)
  | register (r : Registry) (v h : Nat) (n : String) : Step r (register r v h n)
  | dispatch (r : Registry) : Step r (dispatch r)

/-- States reachable from the static initializer
`Mutex::new(InterruptHandlersRegistry::new())`. -/
abbrev Reachable (r : Registry) : Prop := Relation.ReflTransGen Step new r

/-- is_external_handler_context (handler.rs): reads the flag through
`REGISTRY.peek()`. -/
def is_external_handler_context (r : Registry) : Bool := r.is_external_context

/-- The assertion `assert!(!is_external_handler_context())` guarding
interrupt::enable, Semaphore::down, Lock::acquire, block_current_thread and
exit_current_thread: it passes iff this evaluates to true. -/
def assert_not_external (r : Registry) : Bool := !is_external_handler_context r

end InterruptRegistry

/-- C10: in every reachable registry state, `is_external_handler_context`
returns false — no operation in the repository ever writes true into the
`is_external_context` flag (the installed generic handler body is empty and
`register`, modelled from the spec, only installs handlers) — so every
assertion of the form `assert!(!is_external_handler_context())` passes. -/
theorem registry_external_context_always_false (r : InterruptRegistry.Registry)
    (h : InterruptRegistry.Reachable r) :
    InterruptRegistry.is_external_handler_context r = false ∧
    InterruptRegistry.assert_not_external r = true := by
  have key : r.is_external_context = false := by
    induction h with
    | refl => rfl
    | tail hab hbc ih =>
      cases hbc <;>
        simpa [InterruptRegistry.init, InterruptRegistry.load,
          InterruptRegistry.register, InterruptRegistry.dispatch] using ih
  exact ⟨key, by simp [InterruptRegistry.assert_not_external,
    InterruptRegistry.is_external_handler_context, key]⟩

/-- C10 witness: the state right after `init` on the fresh registry —
reached by one step — satisfies the conclusion. -/
theorem registry_external_context_always_false_witness :
    InterruptRegistry.is_external_handler_context
      (InterruptRegistry.init InterruptRegistry.new) = false :=
  (registry_external_context_always_false
    (InterruptRegistry.init InterruptRegistry.new)
    (Relation.ReflTransGen.single
      (InterruptRegistry.Step.init InterruptRegistry.new))).1

end Cheetos
